import Mathlib

/-!
Shallow embedding of the session/token core of the `spotify-mcp` HTTP server
(the stateful variant in `src/unnamed/part_000`, plus the context-passing
variant in `src/unnamed/part_001` where a claim targets it).

Conventions:
* JS `Map` objects (`transports`, `sessionTokens`) are modelled as functions
  `String → Option _`; `Map.set`/`Map.delete` become pointwise updates.
* Milliseconds since the epoch are `Nat` (`Date.now()` is an explicit `now`
  parameter threaded to each function that reads the clock).
* A JS value that may be `undefined` is `Option _`; JS string truthiness
  (`undefined`, `null` and `""` are falsy) is modelled explicitly.
* Network I/O is an oracle argument: each function that performs one fetch
  receives that fetch's outcome as an `Except`/structure argument, so the
  number of upstream calls a code path makes is visible as the number of
  oracle values it consumes (counted explicitly where a claim needs it).
-/

/-- One element of a tool result's `content` array (always `type: "text"`
in this code base). -/
structure ContentItem where
  type : String
  text : String
deriving Repr, DecidableEq

/-- An MCP tool result: `{ content: [...], isError?: true }`.  The JS objects
either set `isError: true` or omit the field; an omitted field is falsy, so it
is modelled as `isError := false`. -/
structure ToolResult where
  content : List ContentItem
  isError : Bool
deriving Repr, DecidableEq

/-- A thrown JS error as inspected by `handleSpotifyTool`: its `message` and
the optional `error.response?.status` field.  Errors built by `new Error(msg)`
(as all `apiCall` closures in this repository do) have no `response` property,
so their `responseStatus` is `none`. -/
structure JsError where
  message : String
  responseStatus : Option Nat
deriving Repr, DecidableEq

/-- The Spotify OAuth token record stored in `sessionTokens`
(`{accessToken, refreshToken, expiresAt}`).  `refreshToken` is `Option`
because the JS field is whatever the exchange response carried and may be
`undefined`; `expiresAt` is `Option` because `isTokenExpired` checks
`!tokens.expiresAt`.  (An `expiresAt` of `0` is falsy in JS and hence
"expired"; `some 0` gives the same verdict here because `now ≥ 0` always.) -/
structure TokenRecord where
  accessToken : String
  refreshToken : Option String
  expiresAt : Option Nat
deriving Repr, DecidableEq

/-- `sessionTokens : Map<string, TokenRecord>` as a function. -/
def TokenStore : Type := String → Option TokenRecord

/-- `sessionTokens.set(sessionId, record)`. -/
def storeSet (st : TokenStore) (sessionId : String) (r : TokenRecord) : TokenStore :=
  fun k => if k = sessionId then some r else st k

/-- `sessionTokens.delete(sessionId)` (a no-op on an absent key, like
`Map.delete`). -/
def storeDelete (st : TokenStore) (sessionId : String) : TokenStore :=
  fun k => if k = sessionId then none else st k

/-- JS `a || b` for an optional string `a` and string `b`: `b` when `a` is
`undefined` or the empty string (both falsy), else the string in `a`. -/
def jsOrD (a : Option String) (b : String) : String :=
  match a with
  | some s => if s = "" then b else s
  | none => b

/-- JS `a || b` where both sides are possibly-`undefined` strings
(used for `data.refresh_token || tokens.refreshToken`). -/
def jsOr (a b : Option String) : Option String :=
  match a with
  | some s => if s = "" then b else some s
  | none => b

/-- JS truthiness of a possibly-absent string value. -/
def jsTruthyStr : Option String → Bool
  | some s => s ≠ ""
  | none => false

/-- Server configuration: `SPOTIFY_CLIENT_ID` and the raw
`process.env.SPOTIFY_REDIRECT_URI` (which may be unset). -/
structure Config where
  clientId : String
  envRedirectUri : Option String

/-- `const SPOTIFY_REDIRECT_URI = process.env.SPOTIFY_REDIRECT_URI ||
"http://localhost:8080/callback/spotify"`. -/
def Config.redirectUri (cfg : Config) : String :=
  jsOrD cfg.envRedirectUri "http://localhost:8080/callback/spotify"

/-- The `baseUrl` computed inside `handleSpotifyTool`:
`process.env.SPOTIFY_REDIRECT_URI?.replace("/callback/spotify", "") ||
"http://localhost:8080"`. -/
def Config.authBaseUrl (cfg : Config) : String :=
  match cfg.envRedirectUri with
  | some u =>
    let r := u.replace "/callback/spotify" ""
    if r = "" then "http://localhost:8080" else r
  | none => "http://localhost:8080"

/-- `function isTokenExpired(tokens)`: true when `expiresAt` is unset or
`Date.now() >= expiresAt`. -/
def isTokenExpired (now : Nat) (tokens : TokenRecord) : Bool :=
  match tokens.expiresAt with
  | none => true
  | some t => now ≥ t

/-- The JSON body of a successful `accounts.spotify.com/api/token` response:
`access_token`, optional `refresh_token`, `expires_in` (seconds). -/
structure TokenResponse where
  access_token : String
  refresh_token : Option String
  expires_in : Nat
deriving Repr, DecidableEq

/-- `async function exchangeCodeForTokens(code)`.  The fetch outcome is the
oracle: `.error desc` models a non-ok response whose body yields
`data.error_description || data.error = desc`; `.ok data` a 2xx body.
On success the stored record is
`{accessToken: data.access_token, refreshToken: data.refresh_token,
expiresAt: Date.now() + data.expires_in * 1000}`. -/
def exchangeCodeForTokens (now : Nat) (upstream : Except String TokenResponse) :
    Except String TokenRecord :=
  match upstream with
  | .error desc => .error ("Token exchange failed: " ++ desc)
  | .ok data =>
    .ok { accessToken := data.access_token
          refreshToken := data.refresh_token
          expiresAt := some (now + data.expires_in * 1000) }

/-- `async function refreshSpotifyToken(tokens)`.  On success the new record is
`{accessToken: data.access_token,
refreshToken: data.refresh_token || tokens.refreshToken,
expiresAt: Date.now() + data.expires_in * 1000}` — note the JS `||`, which
falls back to the prior refresh token when the response's `refresh_token` is
absent *or the empty string*. -/
def refreshSpotifyToken (now : Nat) (tokens : TokenRecord)
    (upstream : Except String TokenResponse) : Except String TokenRecord :=
  match upstream with
  | .error desc => .error ("Token refresh failed: " ++ desc)
  | .ok data =>
    .ok { accessToken := data.access_token
          refreshToken := jsOr data.refresh_token tokens.refreshToken
          expiresAt := some (now + data.expires_in * 1000) }

/-- Result of `getValidAccessToken`: the returned value (`accessToken` or
`null`), the `sessionTokens` store after the call, and how many times
`refreshSpotifyToken` was invoked. -/
structure ResolveResult where
  token : Option String
  store : TokenStore
  refreshCalls : Nat

/-- `async function getValidAccessToken(sessionId)`.  `refreshUpstream` is the
oracle for the (at most one) refresh fetch the function can make. -/
def getValidAccessToken (now : Nat) (refreshUpstream : Except String TokenResponse)
    (sessionId : String) (store : TokenStore) : ResolveResult :=
  match store sessionId with
  | none => ⟨none, store, 0⟩
  | some tokens =>
    if isTokenExpired now tokens then
      match refreshSpotifyToken now tokens refreshUpstream with
      | .ok newTokens =>
        ⟨some newTokens.accessToken, storeSet store sessionId newTokens, 1⟩
      | .error _ => ⟨none, storeDelete store sessionId, 1⟩
    else
      ⟨some tokens.accessToken, store, 0⟩

/-- One hex digit (uppercase), for percent-encoding. -/
def hexDigit (n : Nat) : Char :=
  if n < 10 then Char.ofNat (48 + n) else Char.ofNat (55 + n)

/-- `%XX` percent-encoding of one byte value. -/
def percentEncodeByte (n : Nat) : String :=
  "%" ++ String.singleton (hexDigit (n / 16 % 16)) ++ String.singleton (hexDigit (n % 16))

/-- `application/x-www-form-urlencoded` encoding of one character, as
`URLSearchParams.toString()` performs it: ASCII alphanumerics and `*-._`
unchanged, space becomes `+`, anything else `%XX` (the inputs in this code
base are ASCII, so single-byte encoding suffices). -/
def formEncodeChar (c : Char) : String :=
  if c.isAlphanum && c.toNat < 128 then String.singleton c
  else if c = '*' || c = '-' || c = '.' || c = '_' then String.singleton c
  else if c = ' ' then "+"
  else percentEncodeByte (c.toNat % 256)

/-- `URLSearchParams`-style encoding of a whole (ASCII) string. -/
def formEncode (s : String) : String :=
  String.join (s.toList.map formEncodeChar)

/-- The OAuth scope string requested by `getSpotifyAuthUrl`. -/
def spotifyScope : String :=
  "user-read-private user-read-email playlist-read-private playlist-modify-private playlist-modify-public"

/-- `function getSpotifyAuthUrl(sessionId)`: the
`https://accounts.spotify.com/authorize` URL with `response_type`,
`client_id`, `scope`, `redirect_uri` and `state = sessionId` serialized in
insertion order by `URLSearchParams.toString()`. -/
def getSpotifyAuthUrl (cfg : Config) (sessionId : String) : String :=
  "https://accounts.spotify.com/authorize?response_type=code&client_id="
    ++ formEncode cfg.clientId
    ++ "&scope=" ++ formEncode spotifyScope
    ++ "&redirect_uri=" ++ formEncode cfg.redirectUri
    ++ ("&state=" ++ formEncode sessionId)

/-- The auth-required result built by `handleSpotifyTool` in
`src/unnamed/part_000` when `getValidAccessToken` returned `null`
(`authUrl` is `baseUrl + "/auth?session=" + sessionId`); note it has no
`isError` field. -/
def authRequiredResult (cfg : Config) (sessionId : String) : ToolResult :=
  { content := [⟨"text",
      "🎵 **Spotify Authentication Required**\n\nTo use Spotify features, please visit:\n\n"
        ++ (cfg.authBaseUrl ++ "/auth?session=" ++ sessionId)
        ++ "\n\nThis will redirect you to connect your Spotify account. After authentication, return here and try your request again."⟩]
    isError := false }

/-- The error result built by `handleSpotifyTool` in `src/unnamed/part_000`
when the caught error has `response?.status === 401`. -/
def authExpiredResult (cfg : Config) (sessionId : String) : ToolResult :=
  { content := [⟨"text",
      "🔐 **Spotify Authentication Expired**\n\nYour Spotify session has expired. Please visit:\n\n"
        ++ (cfg.authBaseUrl ++ "/auth?session=" ++ sessionId)
        ++ "\n\nAfter completing authentication, return here and try your request again."⟩]
    isError := true }

/-- The generic error result of `handleSpotifyTool` in `src/unnamed/part_000`
for any other caught error. -/
def apiErrorResult (message : String) : ToolResult :=
  { content := [⟨"text", "❌ **Spotify API Error**\n\n" ++ message⟩]
    isError := true }

/-- The `try/catch` around `await apiCall(accessToken)` in
`src/unnamed/part_000`'s `handleSpotifyTool`, as a function of the call's
outcome: a thrown error with `response?.status === 401` deletes the session's
token record and returns the error-flagged re-auth prompt; any other thrown
error returns the generic error result and leaves the store untouched. -/
def handleApiOutcome (cfg : Config) (sessionId : String) (store : TokenStore)
    (outcome : Except JsError ToolResult) : ToolResult × TokenStore :=
  match outcome with
  | .ok r => (r, store)
  | .error e =>
    if e.responseStatus = some 401 then
      (authExpiredResult cfg sessionId, storeDelete store sessionId)
    else
      (apiErrorResult e.message, store)

/-- Result of one `handleSpotifyTool` run: the tool result, the
`sessionTokens` store afterwards, how many times `apiCall` was invoked and
how many times `refreshSpotifyToken` was invoked. -/
structure WrapResult where
  result : ToolResult
  store : TokenStore
  apiCalls : Nat
  refreshCalls : Nat

/-- `async function handleSpotifyTool(sessionId, apiCall)` of
`src/unnamed/part_000`: resolve a token via `getValidAccessToken`; if that
yields `null`, return the (non-error) auth prompt without calling `apiCall`;
otherwise run `apiCall(accessToken)` under the `try/catch` modelled by
`handleApiOutcome`. -/
def handleSpotifyTool (cfg : Config) (now : Nat)
    (refreshUpstream : Except String TokenResponse) (sessionId : String)
    (store : TokenStore) (apiCall : String → Except JsError ToolResult) : WrapResult :=
  let r := getValidAccessToken now refreshUpstream sessionId store
  match r.token with
  | none => ⟨authRequiredResult cfg sessionId, r.store, 0, r.refreshCalls⟩
  | some accessToken =>
    let o := handleApiOutcome cfg sessionId r.store (apiCall accessToken)
    ⟨o.1, o.2, 1, r.refreshCalls⟩

/-- The auth-required result of `handleSpotifyTool` in
`src/unnamed/part_001`, which embeds `getSpotifyAuthUrl(sessionId)`
directly in the prompt text (again with no `isError` field). -/
def authRequiredResultV1 (cfg : Config) (sessionId : String) : ToolResult :=
  { content := [⟨"text",
      "Please authenticate with Spotify by visiting this link:\n"
        ++ getSpotifyAuthUrl cfg sessionId
        ++ "\n\nAfter authentication, come back and try again."⟩]
    isError := false }

/-- The 401 re-auth error result of `handleSpotifyTool` in
`src/unnamed/part_001`. -/
def authExpiredResultV1 (cfg : Config) (sessionId : String) : ToolResult :=
  { content := [⟨"text",
      "Authentication expired. Please authenticate again:\n"
        ++ getSpotifyAuthUrl cfg sessionId⟩]
    isError := true }

/-- The generic error result of `handleSpotifyTool` in
`src/unnamed/part_001`. -/
def apiErrorResultV1 (message : String) : ToolResult :=
  { content := [⟨"text", "Error: " ++ message⟩]
    isError := true }

/-- The `try/catch` of `src/unnamed/part_001`'s `handleSpotifyTool`. -/
def handleApiOutcomeV1 (cfg : Config) (sessionId : String) (store : TokenStore)
    (outcome : Except JsError ToolResult) : ToolResult × TokenStore :=
  match outcome with
  | .ok r => (r, store)
  | .error e =>
    if e.responseStatus = some 401 then
      (authExpiredResultV1 cfg sessionId, storeDelete store sessionId)
    else
      (apiErrorResultV1 e.message, store)

/-- `async function handleSpotifyTool(sessionId, apiCall)` of
`src/unnamed/part_001` (identical control flow to the `part_000` version;
only the result texts differ). -/
def handleSpotifyToolV1 (cfg : Config) (now : Nat)
    (refreshUpstream : Except String TokenResponse) (sessionId : String)
    (store : TokenStore) (apiCall : String → Except JsError ToolResult) : WrapResult :=
  let r := getValidAccessToken now refreshUpstream sessionId store
  match r.token with
  | none => ⟨authRequiredResultV1 cfg sessionId, r.store, 0, r.refreshCalls⟩
  | some accessToken =>
    let o := handleApiOutcomeV1 cfg sessionId r.store (apiCall accessToken)
    ⟨o.1, o.2, 1, r.refreshCalls⟩

/-- A `StreamableHTTPServerTransport` as far as the session bookkeeping sees
it: its `sessionId` property (set once the session is initialized, hence
optional). -/
structure Transport where
  sessionId : Option String
deriving Repr, DecidableEq

/-- The two process-wide maps of the server: `transports` and
`sessionTokens`. -/
structure ServerState where
  transports : String → Option Transport
  sessionTokens : TokenStore

/-- `function cleanupSession(sessionId)`: close and delete the transport if
present, then `sessionTokens.delete(sessionId)`.  (`Map.delete` on an absent
key is a no-op, so deleting unconditionally is extensionally the JS
behavior; closing the transport has no effect on these two maps.) -/
def cleanupSession (sessionId : String) (σ : ServerState) : ServerState :=
  { transports := fun k => if k = sessionId then none else σ.transports k
    sessionTokens := storeDelete σ.sessionTokens sessionId }

/-- The `transport.onclose` handler installed by the `POST /mcp` route of
`src/unnamed/part_000`: `if (transport.sessionId) cleanupSession(transport.sessionId)`
(JS truthiness, so an empty-string id is skipped too). -/
def transportOnClose (t : Transport) (σ : ServerState) : ServerState :=
  match t.sessionId with
  | some sid => if sid = "" then σ else cleanupSession sid σ
  | none => σ

/-- Outcome of a `POST /mcp` request as far as session bookkeeping goes. -/
inductive McpPostOutcome where
  /-- The request was delegated to the existing transport of this session. -/
  | handled (sessionId : String)
  /-- A fresh transport was created, connected and stored under a new id. -/
  | initialized (newSessionId : String)
  /-- The route answered HTTP 400 with the JSON-RPC error
  `{code: -32000, message: "Bad Request: No valid session ID provided"}`. -/
  | badRequest
deriving Repr, DecidableEq

/-- The session-management branch of `app.post("/mcp", ...)` in
`src/unnamed/part_000`: reuse the transport when the `mcp-session-id` header
is truthy and known; create and store a fresh transport when the header is
falsy and the body is an initialize request; otherwise answer 400 and touch
nothing.  `newSessionId` stands for the `randomUUID()` value. -/
def mcpPost (header : Option String) (isInitializeRequest : Bool)
    (newSessionId : String) (σ : ServerState) : McpPostOutcome × ServerState :=
  if jsTruthyStr header && (σ.transports (header.getD "")).isSome then
    (.handled (header.getD ""), σ)
  else if !jsTruthyStr header && isInitializeRequest then
    (.initialized newSessionId,
     { σ with transports := fun k =>
         if k = newSessionId then some ⟨some newSessionId⟩ else σ.transports k })
  else
    (.badRequest, σ)

/-- The session-management part of `app.delete("/mcp", ...)` in
`src/unnamed/part_000`: 400 when the header is falsy or unknown (no state
change), otherwise handle the request and `cleanupSession(sessionId)`.
The `Bool` is `true` when the request was accepted. -/
def mcpDelete (header : Option String) (σ : ServerState) : Bool × ServerState :=
  if !jsTruthyStr header || (σ.transports (header.getD "")).isNone then
    (false, σ)
  else
    (true, cleanupSession (header.getD "") σ)

/-- HTTP outcome of the OAuth callback route. -/
inductive CallbackOutcome where
  /-- `res.status(400).send(body)`. -/
  | badRequest (body : String)
  /-- `res.status(500).send(body)`. -/
  | serverError (body : String)
  /-- The success HTML page (its markup is out of scope). -/
  | successPage
deriving Repr, DecidableEq

/-- `app.get("/callback/spotify", ...)` of `src/unnamed/part_000`: reject when
the `error` query parameter is truthy, or when `code` or `state` is falsy;
otherwise exchange the code and `sessionTokens.set(sessionId, tokens)` on
success, or answer 500 on exchange failure. -/
def callbackSpotify (now : Nat) (code state errorParam : Option String)
    (exchangeUpstream : Except String TokenResponse) (st : TokenStore) :
    CallbackOutcome × TokenStore :=
  if jsTruthyStr errorParam then
    (.badRequest ("Authentication error: " ++ errorParam.getD ""), st)
  else if !jsTruthyStr code || !jsTruthyStr state then
    (.badRequest "Missing authorization code or session ID", st)
  else
    match exchangeCodeForTokens now exchangeUpstream with
    | .ok tokens => (.successPage, storeSet st (state.getD "") tokens)
    | .error m => (.serverError ("Authentication error: " ++ m), st)

/-- The body of one Spotify Web API fetch as the tool handlers inspect it:
`response.ok`, `response.status`, the error body's `data.error?.message`, and
an abstract success payload (the JSON shaping of successful responses is
routine plumbing outside every claim). -/
structure FetchOutcome where
  ok : Bool
  status : Nat
  errorMessage : Option String
  payloadText : String
deriving Repr, DecidableEq

/-- The `apiCall` closure of the `search-tracks` tool
(`src/unnamed/part_000`, and identically `src/unnamed/part_001`): on a
non-ok response it does `throw new Error("Spotify API error: " +
(data.error?.message || "Unknown error"))` — a plain `Error`, so the thrown
value has **no** `response` property (`responseStatus := none`) and the HTTP
status (even 401) is discarded. -/
def searchTracksApiCall (resp : FetchOutcome) : Except JsError ToolResult :=
  if resp.ok then
    .ok { content := [⟨"text", resp.payloadText⟩], isError := false }
  else
    .error { message := "Spotify API error: " ++ jsOrD resp.errorMessage "Unknown error"
             responseStatus := none }

/-- Arguments of `search-tracks` after zod validation. -/
structure SearchArgs where
  query : String
  limit : Int
deriving Repr, DecidableEq

/-- The zod input schema of `search-tracks`:
`query: z.string()`, `limit: z.number().min(1).max(50).default(10)`.
`none` on the outside means the arguments were rejected. -/
def validateSearchArgs (query : Option String) (limit : Option Int) : Option SearchArgs :=
  match query with
  | none => none
  | some q =>
    match limit with
    | none => some ⟨q, 10⟩
    | some l => if l < 1 || l > 50 then none else some ⟨q, l⟩

/-- Arguments of `get-recommendations` after zod validation. -/
structure RecArgs where
  seedTracks : List String
  limit : Int
deriving Repr, DecidableEq

/-- The zod input schema of `get-recommendations`:
`seedTracks: z.array(z.string()).max(5)` (no lower bound at the schema
level), `limit: z.number().min(1).max(100).default(20)`. -/
def validateRecArgs (seedTracks : Option (List String)) (limit : Option Int) :
    Option RecArgs :=
  match seedTracks with
  | none => none
  | some seeds =>
    if seeds.length > 5 then none
    else
      match limit with
      | none => some ⟨seeds, 20⟩
      | some l => if l < 1 || l > 100 then none else some ⟨seeds, l⟩

/-- The `apiCall` closure of the `get-recommendations` tool
(`src/unnamed/part_000`): it throws `"At least one seed track is required"`
*before* the fetch when `seedTracks.length === 0`; otherwise it performs the
fetch (`resp` is that fetch's outcome) and maps it like `search-tracks`.
The `Nat` counts how many upstream recommendation requests were made. -/
def getRecommendationsApiCall (args : RecArgs) (resp : FetchOutcome) :
    Except JsError ToolResult × Nat :=
  if args.seedTracks.length = 0 then
    (.error { message := "At least one seed track is required", responseStatus := none }, 0)
  else if resp.ok then
    (.ok { content := [⟨"text", resp.payloadText⟩], isError := false }, 1)
  else
    (.error { message := "Spotify API error: " ++ jsOrD resp.errorMessage "Unknown error"
              responseStatus := none }, 1)

/-- Boolean check that `p` is a leading segment of `l`. -/
def leadsB : List Char → List Char → Bool
  | [], _ => true
  | _ :: _, [] => false
  | a :: as, b :: bs => a = b && leadsB as bs

/-- Boolean check that `p` occurs contiguously inside `l`. -/
def listHasSegB (p : List Char) : List Char → Bool
  | [] => leadsB p []
  | c :: rest => leadsB p (c :: rest) || listHasSegB p rest

/-- Boolean check that the string `pat` occurs contiguously inside `s`. -/
def strContains (s pat : String) : Bool :=
  listHasSegB pat.toList s.toList

theorem toList_append (a b : String) : (a ++ b).toList = a.toList ++ b.toList := rfl

theorem leadsB_refl (p : List Char) : leadsB p p = true := by
  induction p with
  | nil => rfl
  | cons a as ih => simp [leadsB, ih]

theorem leadsB_extend (p l b : List Char) (h : leadsB p l = true) :
    leadsB p (l ++ b) = true := by
  induction p generalizing l with
  | nil => rfl
  | cons a as ih =>
    cases l with
    | nil => simp [leadsB] at h
    | cons c cs =>
      simp [leadsB] at h
      simp [leadsB, h.1, ih cs h.2]

theorem listHasSegB_self (p : List Char) : listHasSegB p p = true := by
  cases p with
  | nil => rfl
  | cons c cs => simp [listHasSegB, leadsB_refl]

theorem listHasSegB_append_left (p a l : List Char) (h : listHasSegB p l = true) :
    listHasSegB p (a ++ l) = true := by
  induction a with
  | nil => simpa using h
  | cons c cs ih => simp [listHasSegB, ih]

theorem listHasSegB_append_right (p l b : List Char) (h : listHasSegB p l = true) :
    listHasSegB p (l ++ b) = true := by
  induction l with
  | nil =>
    cases p with
    | nil => cases b with
      | nil => rfl
      | cons d ds => simp [listHasSegB, leadsB]
    | cons a as => simp [listHasSegB, leadsB] at h
  | cons c cs ih =>
    simp only [listHasSegB, Bool.or_eq_true] at h
    rcases h with h | h
    · have h2 := leadsB_extend p (c :: cs) b h
      simp only [List.cons_append] at h2
      simp [listHasSegB, h2]
    · simp [listHasSegB, ih h]

theorem strContains_self (s : String) : strContains s s = true :=
  listHasSegB_self s.toList

theorem strContains_append_left (a l : String) (pat : String)
    (h : strContains l pat = true) : strContains (a ++ l) pat = true := by
  unfold strContains at h ⊢
  rw [toList_append]
  exact listHasSegB_append_left _ _ _ h

theorem strContains_append_right (l b : String) (pat : String)
    (h : strContains l pat = true) : strContains (l ++ b) pat = true := by
  unfold strContains at h ⊢
  rw [toList_append]
  exact listHasSegB_append_right _ _ _ h

/-- C2: for every session id with no Token Record in the Token Store,
`getValidAccessToken` returns `null` (AuthRequired), and `handleSpotifyTool`
returns the non-error authentication-prompt result with the store unchanged
and without ever invoking the provided `apiCall` (`apiCalls = 0`). -/
theorem C2_no_record_auth_prompt (cfg : Config) (now : Nat)
    (ru : Except String TokenResponse) (sessionId : String) (store : TokenStore)
    (apiCall : String → Except JsError ToolResult)
    (h : store sessionId = none) :
    getValidAccessToken now ru sessionId store = ⟨none, store, 0⟩ ∧
    handleSpotifyTool cfg now ru sessionId store apiCall =
      ⟨authRequiredResult cfg sessionId, store, 0, 0⟩ ∧
    (authRequiredResult cfg sessionId).isError = false := by
  have hres : getValidAccessToken now ru sessionId store = ⟨none, store, 0⟩ := by
    unfold getValidAccessToken
    rw [h]
  refine ⟨hres, ?_, rfl⟩
  unfold handleSpotifyTool
  rw [hres]

/-- Witness for C2 at the concrete session `"s1"` and the empty store. -/
theorem C2_no_record_auth_prompt_witness :
    getValidAccessToken 0 (.error "e") "s1" (fun _ => none) =
      ⟨none, fun _ => none, 0⟩ ∧
    handleSpotifyTool ⟨"cid", none⟩ 0 (.error "e") "s1" (fun _ => none)
        (fun _ => .ok ⟨[], false⟩) =
      ⟨authRequiredResult ⟨"cid", none⟩ "s1", fun _ => none, 0, 0⟩ ∧
    (authRequiredResult ⟨"cid", none⟩ "s1").isError = false :=
  C2_no_record_auth_prompt ⟨"cid", none⟩ 0 (.error "e") "s1" (fun _ => none)
    (fun _ => .ok ⟨[], false⟩) rfl

/-- C3: for every Token Record that `isTokenExpired` deems expired
(`expiresAt` in the past or unset), `getValidAccessToken` makes exactly one
refresh attempt (`refreshCalls = 1`); on refresh success it persists the
refreshed record and returns its access token, on refresh failure it removes
the record and returns `null` (AuthRequired).  The single oracle value `ru`
is the one refresh outcome the call can consume, so a failed refresh cannot
be retried within the same call. -/
theorem C3_expired_single_refresh (now : Nat) (ru : Except String TokenResponse)
    (sessionId : String) (store : TokenStore) (rec : TokenRecord)
    (h : store sessionId = some rec) (hexp : isTokenExpired now rec = true) :
    (getValidAccessToken now ru sessionId store).refreshCalls = 1 ∧
    (∀ d : TokenResponse, ru = .ok d →
      getValidAccessToken now ru sessionId store =
        ⟨some d.access_token,
         storeSet store sessionId
           ⟨d.access_token, jsOr d.refresh_token rec.refreshToken,
            some (now + d.expires_in * 1000)⟩, 1⟩) ∧
    (∀ m : String, ru = .error m →
      getValidAccessToken now ru sessionId store =
        ⟨none, storeDelete store sessionId, 1⟩) := by
  unfold getValidAccessToken
  rw [h]
  cases ru with
  | ok d =>
    refine ⟨by simp [hexp, refreshSpotifyToken], ?_, ?_⟩
    · intro d2 hd
      cases hd
      simp [hexp, refreshSpotifyToken]
    · intro m hm
      cases hm
  | error m =>
    refine ⟨by simp [hexp, refreshSpotifyToken], ?_, ?_⟩
    · intro d hd
      cases hd
    · intro m2 hm
      cases hm
      simp [hexp, refreshSpotifyToken]

/-- Witness for C3 at a concrete expired record and a failing refresh. -/
theorem C3_expired_single_refresh_witness :
    (getValidAccessToken 5000 (.error "invalid_grant") "s2"
      (fun k => if k = "s2" then some ⟨"T1", some "R1", some 4000⟩ else none)).refreshCalls
      = 1 ∧
    getValidAccessToken 5000 (.error "invalid_grant") "s2"
      (fun k => if k = "s2" then some ⟨"T1", some "R1", some 4000⟩ else none) =
      ⟨none,
       storeDelete (fun k => if k = "s2" then some ⟨"T1", some "R1", some 4000⟩ else none) "s2",
       1⟩ := by
  obtain ⟨h1, _, h3⟩ := C3_expired_single_refresh 5000 (.error "invalid_grant") "s2"
    (fun k => if k = "s2" then some ⟨"T1", some "R1", some 4000⟩ else none)
    ⟨"T1", some "R1", some 4000⟩ (by simp) (by decide)
  exact ⟨h1, h3 "invalid_grant" rfl⟩

/-- C7: any failure raised by `apiCall` inside `handleSpotifyTool` other than
one carrying `response.status === 401` yields the generic error result
carrying the failure message, and the Token Store is left completely
unchanged — both end-to-end (here with an unexpired record, so resolution
did not touch the store either) and in the catch handler itself
(`handleApiOutcome` returns its input store for every store). -/
theorem C7_non401_failure_frame (cfg : Config) (now : Nat)
    (ru : Except String TokenResponse) (sessionId : String) (store : TokenStore)
    (apiCall : String → Except JsError ToolResult) (rec : TokenRecord) (e : JsError)
    (h : store sessionId = some rec) (hexp : isTokenExpired now rec = false)
    (hcall : apiCall rec.accessToken = .error e)
    (h401 : e.responseStatus ≠ some 401) :
    handleSpotifyTool cfg now ru sessionId store apiCall =
      ⟨apiErrorResult e.message, store, 1, 0⟩ ∧
    (apiErrorResult e.message).isError = true ∧
    strContains ((apiErrorResult e.message).content.headD ⟨"", ""⟩).text e.message
      = true ∧
    (∀ st : TokenStore,
      handleApiOutcome cfg sessionId st (.error e) = (apiErrorResult e.message, st)) := by
  have houtcome : ∀ st : TokenStore,
      handleApiOutcome cfg sessionId st (.error e) = (apiErrorResult e.message, st) := by
    intro st
    unfold handleApiOutcome
    simp [h401]
  refine ⟨?_, rfl, ?_, houtcome⟩
  · unfold handleSpotifyTool
    have hres : getValidAccessToken now ru sessionId store =
        ⟨some rec.accessToken, store, 0⟩ := by
      unfold getValidAccessToken
      rw [h]
      simp [hexp]
    rw [hres]
    simp only [hcall, houtcome]
  · show strContains ("❌ **Spotify API Error**\n\n" ++ e.message) e.message = true
    exact strContains_append_left _ _ _ (strContains_self _)

/-- Witness for C7: a 500-style plain error at a concrete store. -/
theorem C7_non401_failure_frame_witness :
    handleSpotifyTool ⟨"cid", none⟩ 10 (.error "e") "s3"
        (fun k => if k = "s3" then some ⟨"T", some "R", some 99⟩ else none)
        (fun _ => .error ⟨"Spotify API error: boom", none⟩) =
      ⟨apiErrorResult "Spotify API error: boom",
       (fun k => if k = "s3" then some ⟨"T", some "R", some 99⟩ else none), 1, 0⟩ ∧
    (apiErrorResult "Spotify API error: boom").isError = true ∧
    strContains ((apiErrorResult "Spotify API error: boom").content.headD ⟨"", ""⟩).text
      "Spotify API error: boom" = true ∧
    (∀ st : TokenStore,
      handleApiOutcome ⟨"cid", none⟩ "s3" st (.error ⟨"Spotify API error: boom", none⟩) =
        (apiErrorResult "Spotify API error: boom", st)) :=
  C7_non401_failure_frame ⟨"cid", none⟩ 10 (.error "e") "s3"
    (fun k => if k = "s3" then some ⟨"T", some "R", some 99⟩ else none)
    (fun _ => .error ⟨"Spotify API error: boom", none⟩)
    ⟨"T", some "R", some 99⟩ ⟨"Spotify API error: boom", none⟩
    (by simp) (by decide) rfl (by decide)

/-- C1 (failing input): session `"s1"` holds a valid token and Spotify answers
the `search-tracks` fetch with HTTP 401.  The tool's `apiCall` then throws a
plain `Error` (no `response` property), so `handleSpotifyTool`'s
`error.response?.status === 401` test does not match: the session's Token
Record is **kept** in the store and the returned result is the generic error
(no re-authentication link — its text does not even contain `"/auth"`),
contradicting the claimed 401 handling, which the surrounding code
(the dead 401 branch, and the `part_001` comment "Token invalid, clear it
and request re-auth") shows to be the intent. -/
theorem C1_spotify401_misses_reauth_branch :
    (handleSpotifyTool ⟨"cid", none⟩ 1000 (.error "unused") "s1"
        (fun k => if k = "s1" then some ⟨"tokA", some "rtA", some 2000⟩ else none)
        (fun _ => searchTracksApiCall ⟨false, 401, some "The access token expired", ""⟩)).store
      "s1" = some ⟨"tokA", some "rtA", some 2000⟩ ∧
    (handleSpotifyTool ⟨"cid", none⟩ 1000 (.error "unused") "s1"
        (fun k => if k = "s1" then some ⟨"tokA", some "rtA", some 2000⟩ else none)
        (fun _ => searchTracksApiCall ⟨false, 401, some "The access token expired", ""⟩)).result
      = apiErrorResult "Spotify API error: The access token expired" ∧
    strContains
      (((handleSpotifyTool ⟨"cid", none⟩ 1000 (.error "unused") "s1"
          (fun k => if k = "s1" then some ⟨"tokA", some "rtA", some 2000⟩ else none)
          (fun _ => searchTracksApiCall ⟨false, 401, some "The access token expired", ""⟩)).result.content.headD
        ⟨"", ""⟩).text) "/auth" = false ∧
    (handleSpotifyTool ⟨"cid", none⟩ 1000 (.error "unused") "s1"
        (fun k => if k = "s1" then some ⟨"tokA", some "rtA", some 2000⟩ else none)
        (fun _ => searchTracksApiCall ⟨false, 401, some "The access token expired", ""⟩)).result
      ≠ authExpiredResult ⟨"cid", none⟩ "s1" := by
  refine ⟨by decide, by decide, by decide, by decide⟩

/-- C4 counterexample: a refresh response that *carries* a `refresh_token`
field holding the empty string.  JS `data.refresh_token || tokens.refreshToken`
treats it as falsy, so the prior refresh token `"rt1"` is retained rather
than replaced — the claim's "when a refresh_token is present it replaces
rt1" fails at this input. -/
theorem C4_counterexample :
    refreshSpotifyToken 0 ⟨"at1", some "rt1", some 5⟩ (.ok ⟨"at2", some "", 3600⟩) =
      .ok ⟨"at2", some "rt1", some 3600000⟩ ∧
    refreshSpotifyToken 0 ⟨"at1", some "rt1", some 5⟩ (.ok ⟨"at2", some "", 3600⟩) ≠
      .ok ⟨"at2", some "", some 3600000⟩ := by
  have h1 : refreshSpotifyToken 0 ⟨"at1", some "rt1", some 5⟩ (.ok ⟨"at2", some "", 3600⟩) =
      .ok ⟨"at2", some "rt1", some 3600000⟩ := rfl
  rw [h1]
  refine ⟨rfl, ?_⟩
  simp

/-- C4 (amended): `refreshSpotifyToken` preserves the prior refresh token
when the refresh response omits the `refresh_token` field *or carries a
falsy (empty) one*: from a stored record with refresh token `rt1`, a
response `{access_token: at2, expires_in: e}` with no `refresh_token` — or
with `refresh_token: ""` — yields the record
`{at2, rt1, now + e·1000 ms}`; a *non-empty* `refresh_token: rt2` replaces
`rt1`. -/
theorem C4_refresh_preserves_refresh_token (now : Nat) (rec : TokenRecord)
    (d : TokenResponse) (rt1 : String) (h : rec.refreshToken = some rt1) :
    (d.refresh_token = none →
      refreshSpotifyToken now rec (.ok d) =
        .ok ⟨d.access_token, some rt1, some (now + d.expires_in * 1000)⟩) ∧
    (d.refresh_token = some "" →
      refreshSpotifyToken now rec (.ok d) =
        .ok ⟨d.access_token, some rt1, some (now + d.expires_in * 1000)⟩) ∧
    (∀ rt2 : String, d.refresh_token = some rt2 → rt2 ≠ "" →
      refreshSpotifyToken now rec (.ok d) =
        .ok ⟨d.access_token, some rt2, some (now + d.expires_in * 1000)⟩) := by
  refine ⟨?_, ?_, ?_⟩
  · intro hd
    unfold refreshSpotifyToken
    simp [jsOr, hd, h]
  · intro hd
    unfold refreshSpotifyToken
    simp [jsOr, hd, h]
  · intro rt2 hd hne
    unfold refreshSpotifyToken
    simp [jsOr, hd, hne]

/-- Witness for the amended C4 at a concrete record and a response omitting
`refresh_token`. -/
theorem C4_refresh_preserves_refresh_token_witness :
    refreshSpotifyToken 100 ⟨"at1", some "rt1", some 5⟩ (.ok ⟨"at2", none, 60⟩) =
      .ok ⟨"at2", some "rt1", some (100 + 60 * 1000)⟩ :=
  (C4_refresh_preserves_refresh_token 100 ⟨"at1", some "rt1", some 5⟩
    ⟨"at2", none, 60⟩ "rt1" rfl).1 rfl

/-- C5: destroying a session — `cleanupSession` directly, via the transport's
`onclose` notification, or via the explicit `DELETE /mcp` path — removes both
its Transport and its Token Record; a subsequent `getValidAccessToken` for
that session id returns `null` (AuthRequired); destruction is idempotent; and
destruction preserves the no-orphaned-credentials invariant (every token
record's session still has a live transport). -/
theorem C5_destroy_session (σ : ServerState) (sid : String) (now : Nat)
    (ru : Except String TokenResponse) :
    (cleanupSession sid σ).transports sid = none ∧
    (cleanupSession sid σ).sessionTokens sid = none ∧
    getValidAccessToken now ru sid (cleanupSession sid σ).sessionTokens =
      ⟨none, (cleanupSession sid σ).sessionTokens, 0⟩ ∧
    cleanupSession sid (cleanupSession sid σ) = cleanupSession sid σ ∧
    ((∀ k, σ.sessionTokens k ≠ none → σ.transports k ≠ none) →
      ∀ k, (cleanupSession sid σ).sessionTokens k ≠ none →
        (cleanupSession sid σ).transports k ≠ none) ∧
    (∀ t : Transport, t.sessionId = some sid → sid ≠ "" →
      transportOnClose t σ = cleanupSession sid σ) ∧
    (∀ tr : Transport, σ.transports sid = some tr → sid ≠ "" →
      mcpDelete (some sid) σ = (true, cleanupSession sid σ)) := by
  have htok : (cleanupSession sid σ).sessionTokens sid = none := by
    simp [cleanupSession, storeDelete]
  refine ⟨by simp [cleanupSession], htok, ?_, ?_, ?_, ?_, ?_⟩
  · unfold getValidAccessToken
    rw [htok]
  · unfold cleanupSession storeDelete
    refine congrArg₂ ServerState.mk ?_ ?_ <;>
      · funext k
        by_cases hk : k = sid <;> simp [hk]
  · intro hinv k hk
    by_cases hk2 : k = sid
    · subst hk2
      exact absurd htok hk
    · simp only [cleanupSession, storeDelete, hk2, if_neg hk2] at hk ⊢
      exact hinv k hk
  · intro t ht hne
    unfold transportOnClose
    rw [ht]
    simp [hne]
  · intro tr htr hne
    unfold mcpDelete
    simp [jsTruthyStr, hne, htr]

/-- Witness for C5 at a concrete one-session state. -/
theorem C5_destroy_session_witness :
    (cleanupSession "s1"
      ⟨fun k => if k = "s1" then some ⟨some "s1"⟩ else none,
       fun k => if k = "s1" then some ⟨"T", some "R", some 99⟩ else none⟩).transports "s1"
      = none ∧
    (cleanupSession "s1"
      ⟨fun k => if k = "s1" then some ⟨some "s1"⟩ else none,
       fun k => if k = "s1" then some ⟨"T", some "R", some 99⟩ else none⟩).sessionTokens "s1"
      = none ∧
    transportOnClose ⟨some "s1"⟩
      ⟨fun k => if k = "s1" then some ⟨some "s1"⟩ else none,
       fun k => if k = "s1" then some ⟨"T", some "R", some 99⟩ else none⟩ =
      cleanupSession "s1"
        ⟨fun k => if k = "s1" then some ⟨some "s1"⟩ else none,
         fun k => if k = "s1" then some ⟨"T", some "R", some 99⟩ else none⟩ ∧
    mcpDelete (some "s1")
      ⟨fun k => if k = "s1" then some ⟨some "s1"⟩ else none,
       fun k => if k = "s1" then some ⟨"T", some "R", some 99⟩ else none⟩ =
      (true, cleanupSession "s1"
        ⟨fun k => if k = "s1" then some ⟨some "s1"⟩ else none,
         fun k => if k = "s1" then some ⟨"T", some "R", some 99⟩ else none⟩) := by
  obtain ⟨h1, h2, _, _, _, h6, h7⟩ := C5_destroy_session
    ⟨fun k => if k = "s1" then some ⟨some "s1"⟩ else none,
     fun k => if k = "s1" then some ⟨"T", some "R", some 99⟩ else none⟩ "s1" 0 (.error "e")
  exact ⟨h1, h2, h6 ⟨some "s1"⟩ rfl (by decide), h7 ⟨some "s1"⟩ (by simp) (by decide)⟩

/-- C6: after a successful code exchange in the OAuth callback, the Token
Store's entry for the `state` session id is a record whose `accessToken` is
the exchange response's `access_token` and whose `expiresAt` is the time
observed during the call plus the declared `expires_in` seconds (stored in
milliseconds: `now + expires_in * 1000`). -/
theorem C6_callback_roundtrip (now : Nat) (code sid : String) (d : TokenResponse)
    (st : TokenStore) (hc : code ≠ "") (hs : sid ≠ "") :
    callbackSpotify now (some code) (some sid) none (.ok d) st =
      (.successPage,
       storeSet st sid ⟨d.access_token, d.refresh_token, some (now + d.expires_in * 1000)⟩) ∧
    storeSet st sid ⟨d.access_token, d.refresh_token, some (now + d.expires_in * 1000)⟩ sid =
      some ⟨d.access_token, d.refresh_token, some (now + d.expires_in * 1000)⟩ := by
  constructor
  · unfold callbackSpotify exchangeCodeForTokens
    simp [jsTruthyStr, hc, hs]
  · simp [storeSet]

/-- Witness for C6 at a concrete exchange. -/
theorem C6_callback_roundtrip_witness :
    callbackSpotify 500 (some "CODE") (some "s1") none (.ok ⟨"AT", some "RT", 3600⟩)
        (fun _ => none) =
      (.successPage,
       storeSet (fun _ => none) "s1" ⟨"AT", some "RT", some (500 + 3600 * 1000)⟩) ∧
    storeSet (fun _ => none) "s1" ⟨"AT", some "RT", some (500 + 3600 * 1000)⟩ "s1" =
      some ⟨"AT", some "RT", some (500 + 3600 * 1000)⟩ :=
  C6_callback_roundtrip 500 "CODE" "s1" ⟨"AT", some "RT", 3600⟩ (fun _ => none)
    (by decide) (by decide)

/-- C8: for session `"s1"` with no Token Record, a `search-tracks` invocation
(query `"test"`, limit `10` — accepted by the tool's argument schema) through
the context-passing variant's `handleSpotifyTool` (`src/unnamed/part_001`)
returns a result that is not marked as an error, leaves the store untouched,
never calls the Spotify API, and whose text contains the constructed
authorization URL, which carries the session id as the OAuth `state`
parameter (`state=s1`). -/
theorem C8_search_tracks_auth_prompt (cfg : Config) (now : Nat)
    (ru : Except String TokenResponse) (store : TokenStore) (resp : FetchOutcome)
    (h : store "s1" = none) :
    validateSearchArgs (some "test") (some 10) = some ⟨"test", 10⟩ ∧
    handleSpotifyToolV1 cfg now ru "s1" store (fun _ => searchTracksApiCall resp) =
      ⟨authRequiredResultV1 cfg "s1", store, 0, 0⟩ ∧
    (authRequiredResultV1 cfg "s1").isError = false ∧
    strContains ((authRequiredResultV1 cfg "s1").content.headD ⟨"", ""⟩).text
      (getSpotifyAuthUrl cfg "s1") = true ∧
    strContains (getSpotifyAuthUrl cfg "s1") "state=s1" = true := by
  have hres : getValidAccessToken now ru "s1" store = ⟨none, store, 0⟩ := by
    unfold getValidAccessToken
    rw [h]
  refine ⟨by decide, ?_, rfl, ?_, ?_⟩
  · unfold handleSpotifyToolV1
    rw [hres]
  · show strContains
      ("Please authenticate with Spotify by visiting this link:\n"
        ++ getSpotifyAuthUrl cfg "s1"
        ++ "\n\nAfter authentication, come back and try again.")
      (getSpotifyAuthUrl cfg "s1") = true
    exact strContains_append_right _ _ _
      (strContains_append_left _ _ _ (strContains_self _))
  · have he : ("&state=" ++ formEncode "s1") = "&state=s1" := by decide
    unfold getSpotifyAuthUrl
    rw [he]
    exact strContains_append_left _ _ _ (by decide)

/-- Witness for C8 at the empty store and a concrete configuration. -/
theorem C8_search_tracks_auth_prompt_witness :
    validateSearchArgs (some "test") (some 10) = some ⟨"test", 10⟩ ∧
    handleSpotifyToolV1 ⟨"cid", none⟩ 0 (.error "e") "s1" (fun _ => none)
        (fun _ => searchTracksApiCall ⟨true, 200, none, "[]"⟩) =
      ⟨authRequiredResultV1 ⟨"cid", none⟩ "s1", fun _ => none, 0, 0⟩ ∧
    (authRequiredResultV1 ⟨"cid", none⟩ "s1").isError = false ∧
    strContains ((authRequiredResultV1 ⟨"cid", none⟩ "s1").content.headD ⟨"", ""⟩).text
      (getSpotifyAuthUrl ⟨"cid", none⟩ "s1") = true ∧
    strContains (getSpotifyAuthUrl ⟨"cid", none⟩ "s1") "state=s1" = true :=
  C8_search_tracks_auth_prompt ⟨"cid", none⟩ 0 (.error "e") (fun _ => none)
    ⟨true, 200, none, "[]"⟩ rfl

/-- C9: `get-recommendations` argument validation rejects seed lists longer
than 5 and limits outside `1..100`, defaults a missing limit to `20`, and
accepts in-range arguments; and for every authenticated invocation with an
empty `seedTracks` list the handler throws before the fetch, so the tool
returns an error result having made no upstream recommendations request. -/
theorem C9_recommendations_constraints :
    (∀ (seeds : List String) (l : Option Int), seeds.length > 5 →
      validateRecArgs (some seeds) l = none) ∧
    (∀ (seeds : List String) (l : Int), l < 1 ∨ l > 100 →
      validateRecArgs (some seeds) (some l) = none) ∧
    (∀ seeds : List String, seeds.length ≤ 5 →
      validateRecArgs (some seeds) none = some ⟨seeds, 20⟩) ∧
    (∀ (seeds : List String) (l : Int), seeds.length ≤ 5 → 1 ≤ l → l ≤ 100 →
      validateRecArgs (some seeds) (some l) = some ⟨seeds, l⟩) ∧
    (∀ (lim : Int) (resp : FetchOutcome),
      (getRecommendationsApiCall ⟨[], lim⟩ resp).2 = 0 ∧
      (getRecommendationsApiCall ⟨[], lim⟩ resp).1 =
        .error ⟨"At least one seed track is required", none⟩) ∧
    (∀ (cfg : Config) (now : Nat) (ru : Except String TokenResponse)
        (sid : String) (store : TokenStore) (rec : TokenRecord)
        (lim : Int) (resp : FetchOutcome),
      store sid = some rec → isTokenExpired now rec = false →
      handleSpotifyTool cfg now ru sid store
          (fun _ => (getRecommendationsApiCall ⟨[], lim⟩ resp).1) =
        ⟨apiErrorResult "At least one seed track is required", store, 1, 0⟩ ∧
      (apiErrorResult "At least one seed track is required").isError = true) := by
  refine ⟨?_, ?_, ?_, ?_, ?_, ?_⟩
  · intro seeds l hlen
    unfold validateRecArgs
    simp [hlen]
  · intro seeds l hl
    unfold validateRecArgs
    by_cases hlen : seeds.length > 5
    · simp [hlen]
    · rcases hl with hl | hl <;> simp [hlen, hl]
  · intro seeds hlen
    unfold validateRecArgs
    simp
    omega
  · intro seeds l hlen h1 h100
    unfold validateRecArgs
    have : ¬ (l < 1 || l > 100) = true := by
      simp
      omega
    simp [Nat.not_lt.mpr hlen, this]
  · intro lim resp
    refine ⟨rfl, rfl⟩
  · intro cfg now ru sid store rec lim resp h hexp
    have hres : getValidAccessToken now ru sid store =
        ⟨some rec.accessToken, store, 0⟩ := by
      unfold getValidAccessToken
      rw [h]
      simp [hexp]
    refine ⟨?_, rfl⟩
    unfold handleSpotifyTool
    rw [hres]
    rfl

/-- Witness for C9 at concrete inputs: six seeds rejected, limit 0 rejected,
default 20, and an authenticated empty-seed call erroring with no upstream
request. -/
theorem C9_recommendations_constraints_witness :
    validateRecArgs (some ["a", "b", "c", "d", "e", "f"]) (some 10) = none ∧
    validateRecArgs (some ["a"]) (some 0) = none ∧
    validateRecArgs (some ["a"]) none = some ⟨["a"], 20⟩ ∧
    (getRecommendationsApiCall ⟨[], 20⟩ ⟨true, 200, none, "[]"⟩).2 = 0 ∧
    handleSpotifyTool ⟨"cid", none⟩ 10 (.error "e") "s4"
        (fun k => if k = "s4" then some ⟨"T", some "R", some 99⟩ else none)
        (fun _ => (getRecommendationsApiCall ⟨[], 20⟩ ⟨true, 200, none, "[]"⟩).1) =
      ⟨apiErrorResult "At least one seed track is required",
       (fun k => if k = "s4" then some ⟨"T", some "R", some 99⟩ else none), 1, 0⟩ := by
  obtain ⟨h1, h2, h3, _, h5, h6⟩ := C9_recommendations_constraints
  exact ⟨h1 _ _ (by decide), h2 _ _ (by omega), h3 _ (by decide),
    (h5 20 ⟨true, 200, none, "[]"⟩).1,
    (h6 ⟨"cid", none⟩ 10 (.error "e") "s4"
      (fun k => if k = "s4" then some ⟨"T", some "R", some 99⟩ else none)
      ⟨"T", some "R", some 99⟩ 20 ⟨true, 200, none, "[]"⟩ (by simp) (by decide)).1⟩

/-- C10: a `POST /mcp` carrying a (truthy) session id that is absent from the
Session Registry — or carrying no session id while not being an initialize
request — is answered with the HTTP 400 JSON-RPC error and changes neither
process-wide map (the returned state is the input state, so no session,
transport or token record is created). -/
theorem C10_mcp_post_rejects (header : Option String) (isInit : Bool)
    (newSid : String) (σ : ServerState) :
    (∀ sid : String, header = some sid → sid ≠ "" → σ.transports sid = none →
      mcpPost header isInit newSid σ = (.badRequest, σ)) ∧
    (jsTruthyStr header = false → isInit = false →
      mcpPost header isInit newSid σ = (.badRequest, σ)) := by
  constructor
  · intro sid hh hne habs
    subst hh
    unfold mcpPost
    simp [jsTruthyStr, hne, habs]
  · intro hfalsy hinit
    unfold mcpPost
    simp [hfalsy, hinit]

/-- Witness for C10: an unknown session id on one hand, no session id and a
non-initialize body on the other, both at a concrete state. -/
theorem C10_mcp_post_rejects_witness :
    mcpPost (some "ghost") true "fresh"
      ⟨fun _ => none, fun _ => none⟩ =
      (.badRequest, ⟨fun _ => none, fun _ => none⟩) ∧
    mcpPost none false "fresh"
      ⟨fun _ => none, fun _ => none⟩ =
      (.badRequest, ⟨fun _ => none, fun _ => none⟩) :=
  ⟨(C10_mcp_post_rejects (some "ghost") true "fresh"
      ⟨fun _ => none, fun _ => none⟩).1 "ghost" rfl (by decide) rfl,
   (C10_mcp_post_rejects none false "fresh"
      ⟨fun _ => none, fun _ => none⟩).2 rfl rfl⟩
